import Mathlib

/-!
Verification of the metric-aggregation and daily-scheduling core of the
task-tracking API in `src/backend/server.py`.

The Python source is shallowly embedded: the MongoDB collections become
lists held in a `DB` record, each endpoint handler's core (after the
CSRF / input-shape plumbing that the spec scopes out) becomes a pure
function over `DB`, and HTTP error responses become an `ApiError` sum.
Python's `datetime.date` arithmetic (`weekday`, `isoformat`) is embedded
following CPython's proleptic-Gregorian ordinal computation.
-/

namespace TaskApi

/-- Calendar date `(year, month, day)`, as produced by
`datetime.strptime(date_str, "%Y-%m-%d").date()`. -/
structure CalDate where
  year : Nat
  month : Nat
  day : Nat
deriving DecidableEq, Repr

/-- Cumulative day counts before each month in a non-leap year
(CPython `_DAYS_BEFORE_MONTH`). -/
def days_before_month_table : List Nat :=
  [0, 31, 59, 90, 120, 151, 181, 212, 243, 273, 304, 334]

/-- Gregorian leap-year test (CPython `_is_leap`). -/
def isLeap (y : Nat) : Bool :=
  y % 4 == 0 && (y % 100 != 0 || y % 400 == 0)

/-- Number of days before January 1 of year `y` (CPython `_days_before_year`). -/
def days_before_year (y : Nat) : Nat :=
  let yp := y - 1
  yp * 365 + yp / 4 - yp / 100 + yp / 400

/-- Number of days in year `y` preceding the first of month `m`
(CPython `_days_before_month`). -/
def days_before_month (y m : Nat) : Nat :=
  days_before_month_table.getD (m - 1) 0 +
    (if 2 < m then (if isLeap y then 1 else 0) else 0)

/-- Proleptic Gregorian ordinal, with `0001-01-01` as day 1
(CPython `date.toordinal`). -/
def toordinal (dt : CalDate) : Nat :=
  days_before_year dt.year + days_before_month dt.year dt.month + dt.day

/-- `date.weekday()`: Monday = 0 .. Sunday = 6. -/
def weekday (dt : CalDate) : Nat :=
  (toordinal dt + 6) % 7

/-- Left-pad the decimal rendering of `n` with zeros to width `w`. -/
def padNum (n w : Nat) : String :=
  let s := toString n
  String.mk (List.replicate (w - s.length) '0') ++ s

/-- `date.isoformat()`: the `YYYY-MM-DD` string stored in the database. -/
def CalDate.isoformat (dt : CalDate) : String :=
  padNum dt.year 4 ++ "-" ++ padNum dt.month 2 ++ "-" ++ padNum dt.day 2

/-- A document of the `tasks` collection (model `Task` in the source). -/
structure Task where
  id : String
  name : String
  color : String
  metric : String
  goal : Option Int
  template_id : Option String
  scheduled_date : Option String
  created_at : Nat
deriving DecidableEq, Repr

/-- A document of the `templates` collection (model `TaskTemplate`). -/
structure Template where
  id : String
  name : String
  color : String
  metric : String
  goal : Option Int
  active_days : List Nat
  created_at : Nat
deriving DecidableEq, Repr

/-- A document of the `events` collection (model `Event`); `atTime`
embeds the source's timestamp field `at`, which is a Lean keyword. -/
structure Event where
  id : String
  task_id : String
  type : String
  value : Option Int
  atTime : Nat
deriving DecidableEq, Repr

/-- The three MongoDB collections used by the core. -/
structure DB where
  tasks : List Task
  templates : List Template
  events : List Event
deriving DecidableEq, Repr

/-- HTTP-level failures raised by the handlers (`HTTPException`). -/
inductive ApiError where
  | notFound (detail : String)
  | badRequest (detail : String)
  | serverError (detail : String)
deriving DecidableEq, Repr

/-- The JSON shapes returned by `task_summary`: one per metric type plus
the defensive `{"message": "Unknown metric"}` fallback. -/
inductive Summary where
  | countS (total : Int) (goal : Option Int)
  | timerS (total_sec : Int) (goal : Option Int)
  | checkS (done : Bool)
  | unknownMetric (message : String)
deriving DecidableEq, Repr

/-- Sum of `increment` event values for a task, a missing value counting 1:
the `$group`/`$sum`/`$ifNull ["$value", 1]` pipeline of the `count` branch. -/
def count_total (db : DB) (task_id : String) : Int :=
  ((db.events.filter (fun e => e.task_id == task_id && e.type == "increment")).map
    (fun e => e.value.getD 1)).sum

/-- Sum of `timer_stop` event values for a task, a missing value counting 0:
the `$group`/`$sum`/`$ifNull ["$value", 0]` pipeline of the `timer` branch. -/
def timer_total (db : DB) (task_id : String) : Int :=
  ((db.events.filter (fun e => e.task_id == task_id && e.type == "timer_stop")).map
    (fun e => e.value.getD 0)).sum

/-- Whether at least one `check` event exists for the task
(`count_documents(...) > 0` in the `check` branch). -/
def check_done (db : DB) (task_id : String) : Bool :=
  db.events.any (fun e => e.task_id == task_id && e.type == "check")

/-- Core of `GET /api/tasks/{task_id}/summary` (`task_summary` in the
source), after the UUID-shape validation the spec treats as plumbing. -/
def task_summary (db : DB) (task_id : String) : Except ApiError Summary :=
  match db.tasks.find? (fun t => t.id == task_id) with
  | none => .error (.notFound "Task not found")
  | some task =>
    if task.metric == "count" then
      .ok (.countS (count_total db task_id) task.goal)
    else if task.metric == "timer" then
      .ok (.timerS (timer_total db task_id) task.goal)
    else if task.metric == "check" then
      .ok (.checkS (check_done db task_id))
    else
      .ok (.unknownMetric "Unknown metric")

/-- The `EventCreate` pydantic validation: `type` drawn from the four
event kinds, `value` in `[0, 86400]` when present, required for
`timer_stop`, forbidden for `timer_start` and `check`. -/
def event_payload_valid (etype : String) (value : Option Int) : Bool :=
  (etype == "increment" || etype == "timer_start" ||
    etype == "timer_stop" || etype == "check") &&
  (match value with
   | some v => decide (0 ≤ v) && decide (v ≤ 86400)
   | none => true) &&
  (if etype == "timer_stop" then value.isSome else true) &&
  (if etype == "timer_start" || etype == "check" then value.isNone else true)

/-- Core of `POST /api/tasks/{task_id}/events` (`create_event`): validate
the payload, require the task to exist, then append the event document. -/
def create_event (db : DB) (task_id etype : String) (value : Option Int)
    (eid : String) (now : Nat) : Except ApiError (Event × DB) :=
  if event_payload_valid etype value then
    if db.tasks.any (fun t => t.id == task_id) then
      let ev : Event := ⟨eid, task_id, etype, value, now⟩
      .ok (ev, { db with events := db.events ++ [ev] })
    else .error (.notFound "Task not found")
  else .error (.badRequest "Invalid event payload")

/-- Core of `DELETE /api/tasks/{task_id}` (`delete_task`): 404 when the
task is absent, otherwise delete it and every event with its `task_id`. -/
def delete_task (db : DB) (task_id : String) : Except ApiError DB :=
  if db.tasks.any (fun t => t.id == task_id) then
    .ok { db with
          tasks := db.tasks.filter (fun t => !(t.id == task_id)),
          events := db.events.filter (fun e => !(e.task_id == task_id)) }
  else .error (.notFound "Task not found")

/-- Result JSON of `POST /api/tasks/generate-daily/{date_str}`: the
pre-existing-tasks branch returns `{"message", "created"}` (no `tasks`
key, modelled as `none`), the generation branch adds the created list. -/
structure GenResult where
  message : String
  created : Nat
  tasks : Option (List Task)
deriving DecidableEq, Repr

/-- The task document built for one template inside the generation loop:
`name`, `color`, `metric`, `goal` copied verbatim, `template_id` and
`scheduled_date` set, a fresh id and the current timestamp. -/
def instantiate_template (tpl : Template) (tid : String) (iso : String)
    (now : Nat) : Task :=
  ⟨tid, tpl.name, tpl.color, tpl.metric, tpl.goal, some tpl.id, some iso, now⟩

/-- The generation for-loop: one task per selected template, drawing a
fresh id (`uuid4` in the source, here an id supply indexed by position). -/
def make_tasks (supply : Nat → String) (iso : String) (now : Nat) :
    Nat → List Template → List Task
  | _, [] => []
  | i, tpl :: rest =>
    instantiate_template tpl (supply i) iso now ::
      make_tasks supply iso now (i + 1) rest

/-- The idempotence guard of `generate_daily_tasks`:
`count_documents({"scheduled_date": {"$eq": iso}}) > 0`. -/
def gen_check (db : DB) (iso : String) : Bool :=
  db.tasks.any (fun t => t.scheduled_date == some iso)

/-- The templates selected for a date:
`find({"active_days": {"$in": [weekday]}})`. -/
def matching_templates (db : DB) (dt : CalDate) : List Template :=
  db.templates.filter (fun tpl => tpl.active_days.contains (weekday dt))

/-- The insertion phase of `generate_daily_tasks`, run only after the
guard: append one task per matching template. -/
def gen_insert (db : DB) (dt : CalDate) (supply : Nat → String) (now : Nat) :
    DB :=
  { db with tasks := db.tasks ++
      make_tasks supply dt.isoformat now 0 (matching_templates db dt) }

/-- Core of `POST /api/tasks/generate-daily/{date_str}`
(`generate_daily_tasks`), after date parsing: guard on pre-existing tasks
for the date, otherwise expand matching templates into tasks. -/
def generate_daily_tasks (db : DB) (dt : CalDate) (supply : Nat → String)
    (now : Nat) : GenResult × DB :=
  let iso := dt.isoformat
  if gen_check db iso then
    ({ message := "Tasks already exist for " ++ iso, created := 0,
       tasks := none }, db)
  else
    let created := make_tasks supply iso now 0 (matching_templates db dt)
    ({ message := "Generated " ++ toString created.length ++ " tasks for " ++ iso,
       created := created.length, tasks := some created },
     gen_insert db dt supply now)

/-- Report JSON of `GET /api/reports/daily/{date_str}`; `metrics` is the
Python dict as an association list in key order. -/
structure Report where
  date : String
  total_tasks : Nat
  completed_tasks : Nat
  completion_rate : ℚ
  metrics : List (String × Nat)
deriving DecidableEq, Repr

/-- The initial per-metric tally dict `{"count": 0, "timer": 0, "check": 0}`. -/
def init_metrics : List (String × Nat) :=
  [("count", 0), ("timer", 0), ("check", 0)]

/-- `metrics[key] += 1` on the association list: `none` models the
`KeyError` raised when `key` is not present. -/
def incKey : List (String × Nat) → String → Option (List (String × Nat))
  | [], _ => none
  | (k, v) :: rest, key =>
    if k == key then some ((k, v + 1) :: rest)
    else (incKey rest key).map (fun m => (k, v) :: m)

/-- Whether any event at all is recorded for the task: the
`count_documents({"task_id": {"$eq": task_id}}) > 0` presence check. -/
def has_activity (events : List Event) (t : Task) : Bool :=
  events.any (fun e => e.task_id == t.id)

/-- The report loop over the date's tasks: count completed tasks and
bump the per-metric dict; `none` models the uncaught `KeyError` for a
metric outside the dict's keys. -/
def tally (events : List Event) :
    List Task → Nat → List (String × Nat) → Option (Nat × List (String × Nat))
  | [], completed, metrics => some (completed, metrics)
  | t :: rest, completed, metrics =>
    if has_activity events t then
      match incKey metrics t.metric with
      | none => none
      | some m2 => tally events rest (completed + 1) m2
    else
      tally events rest completed metrics

/-- Python 3 `round` to an integer: round half to even. -/
def pyRoundInt (q : ℚ) : Int :=
  let f := ⌊q⌋
  let r := q - (f : ℚ)
  if r < 1 / 2 then f
  else if 1 / 2 < r then f + 1
  else if f % 2 = 0 then f else f + 1

/-- Python 3 `round(q, 1)` (the float quantity modelled exactly as a
rational). -/
def round1 (q : ℚ) : ℚ :=
  (pyRoundInt (q * 10) : ℚ) / 10

/-- Core of `GET /api/reports/daily/{date_str}` (`daily_report`), after
date parsing; any exception in the loop (in particular the `KeyError`)
is caught and surfaced as a generic 500. -/
def daily_report (db : DB) (dt : CalDate) : Except ApiError Report :=
  if (db.tasks.filter (fun t => t.scheduled_date == some dt.isoformat)).isEmpty then
    .ok ⟨dt.isoformat, 0, 0, 0, []⟩
  else
    match tally db.events
        (db.tasks.filter (fun t => t.scheduled_date == some dt.isoformat))
        0 init_metrics with
    | none => .error (.serverError "Failed to generate daily report")
    | some (completed, metrics) =>
      .ok ⟨dt.isoformat,
        (db.tasks.filter (fun t => t.scheduled_date == some dt.isoformat)).length,
        completed,
        round1 ((completed : ℚ) /
          ((db.tasks.filter (fun t => t.scheduled_date == some dt.isoformat)).length : ℚ) *
          100),
        metrics⟩

/-- One index declaration made by `ensure_indexes`. -/
structure IndexSpec where
  collection : String
  keys : List String
  unique : Bool
deriving DecidableEq, Repr

/-- The six indexes created by `ensure_indexes`, in source order; only
the two `id` indexes are unique, and every index is single-key. -/
def ensure_indexes : List IndexSpec :=
  [⟨"tasks", ["id"], true⟩,
   ⟨"tasks", ["scheduled_date"], false⟩,
   ⟨"tasks", ["template_id"], false⟩,
   ⟨"templates", ["id"], true⟩,
   ⟨"events", ["task_id"], false⟩,
   ⟨"events", ["at"], false⟩]

/-! ## Helper lemmas -/

theorem create_event_ok {db : DB} {tid ty : String} {v : Option Int}
    {eid : String} {now : Nat} {ev : Event} {db2 : DB}
    (h : create_event db tid ty v eid now = .ok (ev, db2)) :
    ev = ⟨eid, tid, ty, v, now⟩ ∧
      db2 = { db with events := db.events ++ [ev] } := by
  unfold create_event at h
  split at h
  · split at h
    · simp only [Except.ok.injEq, Prod.mk.injEq] at h
      obtain ⟨h1, h2⟩ := h
      subst h1
      exact ⟨rfl, h2.symm⟩
    · simp at h
  · simp at h

theorem create_event_tasks_eq {db : DB} {tid ty : String} {v : Option Int}
    {eid : String} {now : Nat} {ev : Event} {db2 : DB}
    (h : create_event db tid ty v eid now = .ok (ev, db2)) :
    db2.tasks = db.tasks := by
  obtain ⟨_, hdb⟩ := create_event_ok h
  rw [hdb]

/-! ## Claims about the Metric Aggregator (`task_summary`) -/

/-- C1: for a task with `metric = count`, `task_summary` returns
`{total, goal}` with `total` the sum of `increment` event values (a null
value counting 1) and `goal` the stored goal; logging one `increment`
event with value `v` (resp. with a null value) increases the total by
exactly `v` (resp. by 1). -/
theorem count_summary_spec (db : DB) (tid : String) (task : Task)
    (hfind : db.tasks.find? (fun t => t.id == tid) = some task)
    (hm : task.metric = "count") :
    task_summary db tid = .ok (.countS (count_total db tid) task.goal) ∧
    (∀ (v : Int) (eid : String) (now : Nat) (ev : Event) (db2 : DB),
      create_event db tid "increment" (some v) eid now = .ok (ev, db2) →
      count_total db2 tid = count_total db tid + v) ∧
    (∀ (eid : String) (now : Nat) (ev : Event) (db2 : DB),
      create_event db tid "increment" none eid now = .ok (ev, db2) →
      count_total db2 tid = count_total db tid + 1) := by
  refine ⟨?_, ?_, ?_⟩
  · unfold task_summary
    rw [hfind]
    simp [hm]
  · intro v eid now ev db2 h
    obtain ⟨hev, hdb⟩ := create_event_ok h
    subst hev hdb
    simp [count_total, List.filter_append]
  · intro eid now ev db2 h
    obtain ⟨hev, hdb⟩ := create_event_ok h
    subst hev hdb
    simp [count_total, List.filter_append]

/-- C5: for a task with `metric = timer`, `task_summary` returns
`{total_sec, goal}` with `total_sec` the sum of `timer_stop` event
values; a `timer_stop` of value `v` adds exactly `v`, while a
`timer_start` event changes neither the total nor the summary — no
start/stop pairing is attempted. -/
theorem timer_summary_spec (db : DB) (tid : String) (task : Task)
    (hfind : db.tasks.find? (fun t => t.id == tid) = some task)
    (hm : task.metric = "timer") :
    task_summary db tid = .ok (.timerS (timer_total db tid) task.goal) ∧
    (∀ (eid : String) (now : Nat) (ev : Event) (db2 : DB),
      create_event db tid "timer_start" none eid now = .ok (ev, db2) →
      timer_total db2 tid = timer_total db tid ∧
        task_summary db2 tid = task_summary db tid) ∧
    (∀ (v : Int) (eid : String) (now : Nat) (ev : Event) (db2 : DB),
      create_event db tid "timer_stop" (some v) eid now = .ok (ev, db2) →
      timer_total db2 tid = timer_total db tid + v) := by
  refine ⟨?_, ?_, ?_⟩
  · unfold task_summary
    rw [hfind]
    simp [hm]
  · intro eid now ev db2 h
    obtain ⟨hev, hdb⟩ := create_event_ok h
    subst hev hdb
    have htot : timer_total
        { db with events := db.events ++ [⟨eid, tid, "timer_start", none, now⟩] } tid =
        timer_total db tid := by
      simp [timer_total, List.filter_append]
    refine ⟨htot, ?_⟩
    unfold task_summary
    rw [hfind]
    simp only [hm]
    simp [htot, count_total, check_done, List.filter_append, List.any_append]
  · intro v eid now ev db2 h
    obtain ⟨hev, hdb⟩ := create_event_ok h
    subst hev hdb
    simp [timer_total, List.filter_append]

/-- C6: for a task with `metric = check`, `task_summary` returns
`{done}` with `done` true iff at least one `check` event exists; `done`
is `false` when no `check` event is recorded, and logging a `check`
event always yields `done = true`, so further `check` events never
change the result once it is true. -/
theorem check_summary_spec (db : DB) (tid : String) (task : Task)
    (hfind : db.tasks.find? (fun t => t.id == tid) = some task)
    (hm : task.metric = "check") :
    task_summary db tid = .ok (.checkS (check_done db tid)) ∧
    (check_done db tid = true ↔
      ∃ e ∈ db.events, e.task_id = tid ∧ e.type = "check") ∧
    ((∀ e ∈ db.events, e.task_id = tid → e.type ≠ "check") →
      task_summary db tid = .ok (.checkS false)) ∧
    (∀ (eid : String) (now : Nat) (ev : Event) (db2 : DB),
      create_event db tid "check" none eid now = .ok (ev, db2) →
      task_summary db2 tid = .ok (.checkS true)) := by
  have hbase : task_summary db tid = .ok (.checkS (check_done db tid)) := by
    unfold task_summary
    rw [hfind]
    simp [hm]
  refine ⟨hbase, ?_, ?_, ?_⟩
  · simp [check_done, List.any_eq_true]
  · intro hno
    have hfalse : check_done db tid = false := by
      simp only [check_done, List.any_eq_false]
      intro e he
      simp only [Bool.and_eq_true, beq_iff_eq, not_and]
      intro h1
      exact fun h2 => hno e he h1 h2
    rw [hbase, hfalse]
  · intro eid now ev db2 h
    obtain ⟨hev, hdb⟩ := create_event_ok h
    subst hev hdb
    unfold task_summary
    rw [hfind]
    simp [hm, check_done, List.any_append]

/-- C7: `task_summary` on an id matching no task signals `NotFound`
whatever the event store holds (the existence check precedes the
aggregation); deleting a task removes every event carrying its id, and
`task_summary` on the deleted id then signals `NotFound`. -/
theorem summary_notfound_spec (db : DB) (tid : String) :
    ((∀ t ∈ db.tasks, t.id ≠ tid) →
      ∀ evs : List Event,
        task_summary ⟨db.tasks, db.templates, evs⟩ tid =
          .error (.notFound "Task not found")) ∧
    (∀ db2 : DB, delete_task db tid = .ok db2 →
      (∀ e ∈ db2.events, e.task_id ≠ tid) ∧
        task_summary db2 tid = .error (.notFound "Task not found")) := by
  constructor
  · intro habs evs
    unfold task_summary
    have : (⟨db.tasks, db.templates, evs⟩ : DB).tasks.find?
        (fun t => t.id == tid) = none := by
      rw [List.find?_eq_none]
      intro t ht
      simp [habs t ht]
    rw [this]
  · intro db2 hdel
    unfold delete_task at hdel
    split at hdel
    · simp only [Except.ok.injEq] at hdel
      subst hdel
      constructor
      · intro e he
        have := (List.mem_filter.mp he).2
        simpa using this
      · unfold task_summary
        have : (db.events.filter (fun e => !(e.task_id == tid))) =
            (db.events.filter (fun e => !(e.task_id == tid))) := rfl
        have hnone : (db.tasks.filter (fun t => !(t.id == tid))).find?
            (fun t => t.id == tid) = none := by
          rw [List.find?_eq_none]
          intro t ht
          have := (List.mem_filter.mp ht).2
          simpa using this
        rw [show ({ db with
            tasks := db.tasks.filter (fun t => !(t.id == tid)),
            events := db.events.filter (fun e => !(e.task_id == tid)) } : DB).tasks =
            db.tasks.filter (fun t => !(t.id == tid)) from rfl]
        rw [hnone]
    · simp at hdel

/-- C8: `task_summary` on an existing task whose stored metric is none
of `count`, `timer`, `check` returns the distinguished
`{"message": "Unknown metric"}` result as a success, not a failure. -/
theorem unknown_metric_spec (db : DB) (tid : String) (task : Task)
    (hfind : db.tasks.find? (fun t => t.id == tid) = some task)
    (hm : task.metric ∉ (["count", "timer", "check"] : List String)) :
    task_summary db tid = .ok (.unknownMetric "Unknown metric") := by
  simp only [List.mem_cons, List.not_mem_nil, or_false, not_or] at hm
  obtain ⟨h1, h2, h3⟩ := hm
  unfold task_summary
  rw [hfind]
  simp [h1, h2, h3]

/-! ## Lemmas about the generation loop -/

theorem make_tasks_forall2 (supply : Nat → String) (iso : String) (now : Nat) :
    ∀ (l : List Template) (i : Nat),
      List.Forall₂ (fun (tk : Task) (tpl : Template) =>
        tk.name = tpl.name ∧ tk.color = tpl.color ∧ tk.metric = tpl.metric ∧
        tk.goal = tpl.goal ∧ tk.template_id = some tpl.id ∧
        tk.scheduled_date = some iso ∧ tk.created_at = now)
        (make_tasks supply iso now i l) l := by
  intro l
  induction l with
  | nil => intro i; exact List.Forall₂.nil
  | cons tpl rest ih =>
    intro i
    exact List.Forall₂.cons ⟨rfl, rfl, rfl, rfl, rfl, rfl, rfl⟩ (ih (i + 1))

theorem make_tasks_mem (supply : Nat → String) (iso : String) (now : Nat) :
    ∀ (l : List Template) (i : Nat) (tk : Task),
      tk ∈ make_tasks supply iso now i l →
      ∃ tpl ∈ l, ∃ tid, tk = instantiate_template tpl tid iso now := by
  intro l
  induction l with
  | nil => intro i tk h; simp [make_tasks] at h
  | cons tpl rest ih =>
    intro i tk h
    simp only [make_tasks, List.mem_cons] at h
    cases h with
    | inl h => exact ⟨tpl, List.mem_cons_self tpl rest, supply i, h⟩
    | inr h =>
      obtain ⟨tpl2, h2, tid, h3⟩ := ih (i + 1) tk h
      exact ⟨tpl2, List.mem_cons_of_mem tpl h2, tid, h3⟩

/-! ## Claims about the Daily Scheduler (`generate_daily_tasks`) -/

/-- C2: with no pre-existing tasks for the date, generation creates
exactly one task per template whose `active_days` contains the
Monday=0..Sunday=6 weekday of the date and none for any other template,
each copying `name`, `color`, `metric`, `goal` verbatim and carrying
`template_id` and `scheduled_date = d`. -/
theorem generate_creates_matching_tasks (db : DB) (dt : CalDate)
    (supply : Nat → String) (now : Nat)
    (hno : ∀ t ∈ db.tasks, t.scheduled_date ≠ some dt.isoformat) :
    ∃ ts : List Task,
      (generate_daily_tasks db dt supply now).1.tasks = some ts ∧
      (generate_daily_tasks db dt supply now).1.created = ts.length ∧
      (generate_daily_tasks db dt supply now).2 =
        { db with tasks := db.tasks ++ ts } ∧
      List.Forall₂ (fun (tk : Task) (tpl : Template) =>
        tk.name = tpl.name ∧ tk.color = tpl.color ∧ tk.metric = tpl.metric ∧
        tk.goal = tpl.goal ∧ tk.template_id = some tpl.id ∧
        tk.scheduled_date = some dt.isoformat ∧ tk.created_at = now)
        ts (matching_templates db dt) ∧
      (∀ tk ∈ ts, ∃ tpl ∈ db.templates,
        tpl.active_days.contains (weekday dt) = true ∧
        ∃ tid, tk = instantiate_template tpl tid dt.isoformat now) ∧
      weekday ⟨2024, 6, 3⟩ = 0 ∧ weekday ⟨2024, 6, 9⟩ = 6 := by
  have hguard : gen_check db dt.isoformat = false := by
    simp only [gen_check, List.any_eq_false]
    intro t ht
    simpa using hno t ht
  refine ⟨make_tasks supply dt.isoformat now 0 (matching_templates db dt),
    ?_, ?_, ?_, make_tasks_forall2 supply dt.isoformat now _ 0, ?_, by decide, by decide⟩
  · simp [generate_daily_tasks, hguard]
  · simp [generate_daily_tasks, hguard]
  · simp [generate_daily_tasks, hguard, gen_insert]
  · intro tk hk
    obtain ⟨tpl, htpl, tid, heq⟩ :=
      make_tasks_mem supply dt.isoformat now (matching_templates db dt) 0 tk hk
    have hmem := List.mem_filter.mp htpl
    exact ⟨tpl, hmem.1, hmem.2, tid, heq⟩

theorem toString_zero_append :
    "Generated " ++ toString (0 : Nat) ++ " tasks for " =
      "Generated 0 tasks for " := by
  decide

/-- C3: if any task already carries the date, generation returns the
pre-existing-tasks message with `created = 0` and an unchanged store,
whatever the templates now say; with no task for the date and no
matching template it returns `created = 0` under the distinct
"Generated 0 tasks" message; and an immediate second call for the same
date always returns `created = 0` without touching the store. -/
theorem generate_idempotence_spec (db : DB) (dt : CalDate)
    (supply : Nat → String) (now : Nat) :
    ((∃ t ∈ db.tasks, t.scheduled_date = some dt.isoformat) →
      generate_daily_tasks db dt supply now =
        ({ message := "Tasks already exist for " ++ dt.isoformat,
           created := 0, tasks := none }, db)) ∧
    ((∀ t ∈ db.tasks, t.scheduled_date ≠ some dt.isoformat) →
      matching_templates db dt = [] →
      generate_daily_tasks db dt supply now =
        ({ message := "Generated 0 tasks for " ++ dt.isoformat,
           created := 0, tasks := some [] }, db) ∧
      "Generated 0 tasks for " ++ dt.isoformat ≠
        "Tasks already exist for " ++ dt.isoformat) ∧
    (∀ (supply2 : Nat → String) (now2 : Nat),
      (generate_daily_tasks
        (generate_daily_tasks db dt supply now).2 dt supply2 now2).1.created = 0 ∧
      (generate_daily_tasks
        (generate_daily_tasks db dt supply now).2 dt supply2 now2).2 =
        (generate_daily_tasks db dt supply now).2) := by
  have l1 : ("Generated 0 tasks for " : String).length = 22 := by decide
  have l2 : ("Tasks already exist for " : String).length = 24 := by decide
  have hmsg : "Generated 0 tasks for " ++ dt.isoformat ≠
      "Tasks already exist for " ++ dt.isoformat := by
    intro h
    have hl := congrArg String.length h
    rw [String.length_append, String.length_append, l1, l2] at hl
    omega
  have hguard_branch : ∀ (s : Nat → String) (n : Nat),
      gen_check db dt.isoformat = true →
      generate_daily_tasks db dt s n =
        ({ message := "Tasks already exist for " ++ dt.isoformat,
           created := 0, tasks := none }, db) := by
    intro s n hg
    simp [generate_daily_tasks, hg]
  refine ⟨?_, ?_, ?_⟩
  · intro ⟨t, ht, hts⟩
    apply hguard_branch
    simp only [gen_check, List.any_eq_true]
    exact ⟨t, ht, by simp [hts]⟩
  · intro hno hmatch
    have hguard : gen_check db dt.isoformat = false := by
      simp only [gen_check, List.any_eq_false]
      intro t ht
      simpa using hno t ht
    refine ⟨?_, hmsg⟩
    simp [generate_daily_tasks, hguard, hmatch, gen_insert, make_tasks]
    exact congrArg (fun s => s ++ dt.isoformat) toString_zero_append
  · intro supply2 now2
    by_cases hg : gen_check db dt.isoformat = true
    · simp only [hguard_branch supply now hg]
      simp only [hguard_branch supply2 now2 hg]
      exact ⟨trivial, trivial⟩
    · rw [Bool.not_eq_true] at hg
      cases hmatch : matching_templates db dt with
      | nil =>
        have h1 : generate_daily_tasks db dt supply now =
            ({ message := "Generated 0 tasks for " ++ dt.isoformat,
               created := 0, tasks := some [] }, db) := by
          simp [generate_daily_tasks, hg, hmatch, gen_insert, make_tasks]
          exact congrArg (fun s => s ++ dt.isoformat) toString_zero_append
        have h2 : generate_daily_tasks db dt supply2 now2 =
            ({ message := "Generated 0 tasks for " ++ dt.isoformat,
               created := 0, tasks := some [] }, db) := by
          simp [generate_daily_tasks, hg, hmatch, gen_insert, make_tasks]
          exact congrArg (fun s => s ++ dt.isoformat) toString_zero_append
        simp only [h1, h2]
        exact ⟨trivial, trivial⟩
      | cons tpl rest =>
        have hstate : (generate_daily_tasks db dt supply now).2 =
            gen_insert db dt supply now := by
          simp [generate_daily_tasks, hg]
        rw [hstate]
        have hg2 : gen_check (gen_insert db dt supply now) dt.isoformat = true := by
          simp only [gen_check, gen_insert, List.any_eq_true]
          refine ⟨instantiate_template tpl (supply 0) dt.isoformat now, ?_, ?_⟩
          · rw [hmatch]
            simp [make_tasks]
          · simp [instantiate_template]
        simp [generate_daily_tasks, hg2]

/-! ## Lemmas about the report tally -/

theorem incKey_keys :
    ∀ (m : List (String × Nat)) (k : String) (m2 : List (String × Nat)),
      incKey m k = some m2 → m2.map Prod.fst = m.map Prod.fst := by
  intro m
  induction m with
  | nil => intro k m2 h; simp [incKey] at h
  | cons kv rest ih =>
    intro k m2 h
    obtain ⟨k0, v0⟩ := kv
    simp only [incKey] at h
    split at h
    · simp only [Option.some.injEq] at h
      subst h
      simp
    · rw [Option.map_eq_some'] at h
      obtain ⟨m', hm', hcons⟩ := h
      subst hcons
      simp [ih k m' hm']

theorem incKey_none_of_not_mem :
    ∀ (m : List (String × Nat)) (k : String),
      k ∉ m.map Prod.fst → incKey m k = none := by
  intro m
  induction m with
  | nil => intro k _; rfl
  | cons kv rest ih =>
    intro k hk
    obtain ⟨k0, v0⟩ := kv
    simp only [List.map_cons, List.mem_cons, not_or] at hk
    simp only [incKey]
    rw [if_neg (by rw [beq_iff_eq]; exact fun h => hk.1 h.symm)]
    rw [ih k hk.2]
    rfl

theorem incKey_isSome_of_mem :
    ∀ (m : List (String × Nat)) (k : String),
      k ∈ m.map Prod.fst → (incKey m k).isSome = true := by
  intro m
  induction m with
  | nil => intro k h; simp at h
  | cons kv rest ih =>
    intro k hk
    obtain ⟨k0, v0⟩ := kv
    simp only [incKey]
    by_cases h0 : k0 == k
    · rw [if_pos h0]; rfl
    · rw [if_neg h0]
      simp only [List.map_cons, List.mem_cons] at hk
      cases hk with
      | inl h =>
        subst h
        simp at h0
      | inr h =>
        have := ih k h
        rw [Option.isSome_iff_exists] at this
        obtain ⟨m', hm'⟩ := this
        rw [hm']
        rfl

theorem tally_completed (events : List Event) :
    ∀ (l : List Task) (c : Nat) (m : List (String × Nat)),
      (∀ t ∈ l, has_activity events t = true → t.metric ∈ m.map Prod.fst) →
      ∃ m2, tally events l c m =
          some (c + (l.filter (fun t => has_activity events t)).length, m2) ∧
        m2.map Prod.fst = m.map Prod.fst := by
  intro l
  induction l with
  | nil => intro c m _; exact ⟨m, rfl, rfl⟩
  | cons t rest ih =>
    intro c m hkeys
    by_cases ha : has_activity events t = true
    · have hmem : t.metric ∈ m.map Prod.fst :=
        hkeys t (List.mem_cons_self t rest) ha
      have hsome := incKey_isSome_of_mem m t.metric hmem
      rw [Option.isSome_iff_exists] at hsome
      obtain ⟨m', hm'⟩ := hsome
      have hkeys' : m'.map Prod.fst = m.map Prod.fst := incKey_keys m t.metric m' hm'
      obtain ⟨m2, htal, hk2⟩ := ih (c + 1) m' (by
        intro t2 ht2 ha2
        rw [hkeys']
        exact hkeys t2 (List.mem_cons_of_mem t ht2) ha2)
      refine ⟨m2, ?_, hk2.trans hkeys'⟩
      have hstep : tally events (t :: rest) c m = tally events rest (c + 1) m' := by
        simp [tally, ha, hm']
      have hfil : List.filter (fun t => has_activity events t) (t :: rest) =
          t :: List.filter (fun t => has_activity events t) rest := by
        simp [List.filter_cons, ha]
      rw [hstep, htal, hfil]
      simp only [List.length_cons]
      have harith : c + 1 + (List.filter (fun t => has_activity events t) rest).length =
          c + ((List.filter (fun t => has_activity events t) rest).length + 1) := by
        omega
      rw [harith]
    · rw [Bool.not_eq_true] at ha
      obtain ⟨m2, htal, hk2⟩ := ih c m (by
        intro t2 ht2 ha2
        exact hkeys t2 (List.mem_cons_of_mem t ht2) ha2)
      refine ⟨m2, ?_, hk2⟩
      have hstep : tally events (t :: rest) c m = tally events rest c m := by
        simp [tally, ha]
      have hfil : List.filter (fun t => has_activity events t) (t :: rest) =
          List.filter (fun t => has_activity events t) rest := by
        simp [List.filter_cons, ha]
      rw [hstep, htal, hfil]

theorem tally_fails (events : List Event) :
    ∀ (l : List Task) (c : Nat) (m : List (String × Nat)),
      (∃ t ∈ l, has_activity events t = true ∧ t.metric ∉ m.map Prod.fst) →
      tally events l c m = none := by
  intro l
  induction l with
  | nil => intro c m h; simp at h
  | cons t rest ih =>
    intro c m ⟨t0, ht0, ha0, hk0⟩
    by_cases ha : has_activity events t = true
    · cases hk : incKey m t.metric with
      | none => simp [tally, ha, hk]
      | some m' =>
        have hkeys : m'.map Prod.fst = m.map Prod.fst := incKey_keys m t.metric m' hk
        have hne : t0 ≠ t := by
          intro heq
          subst heq
          have : (incKey m t0.metric).isSome = true := by rw [hk]; rfl
          rcases List.mem_cons.mp ht0 with _ | hmem
          · exact hk0 (by
              by_contra hnot
              rw [incKey_none_of_not_mem m t0.metric hnot] at hk
              cases hk)
          · exact hk0 (by
              by_contra hnot
              rw [incKey_none_of_not_mem m t0.metric hnot] at hk
              cases hk)
        have hmem : t0 ∈ rest := by
          rcases List.mem_cons.mp ht0 with h | h
          · exact absurd h hne
          · exact h
        simp only [tally, ha, if_true, hk]
        exact ih (c + 1) m' ⟨t0, hmem, ha0, by rw [hkeys]; exact hk0⟩
    · rw [Bool.not_eq_true] at ha
      have hne : t0 ≠ t := by
        intro heq
        subst heq
        rw [ha0] at ha
        cases ha
      have hmem : t0 ∈ rest := by
        rcases List.mem_cons.mp ht0 with h | h
        · exact absurd h hne
        · exact h
      simp only [tally, ha, Bool.false_eq_true, if_false]
      exact ih c m ⟨t0, hmem, ha0, hk0⟩

/-! ## Claims about the daily report (`daily_report`) -/

/-- C4: a task counts as completed iff at least one event of any type is
recorded for it, the completion rate is `completed / total * 100`
rounded to one decimal place, and a date with no scheduled tasks yields
the all-zero report with an empty metrics map. -/
theorem daily_report_spec (db : DB) (dt : CalDate) :
    (db.tasks.filter (fun t => t.scheduled_date == some dt.isoformat) = [] →
      daily_report db dt = .ok ⟨dt.isoformat, 0, 0, 0, []⟩) ∧
    (∀ T : List Task,
      T = db.tasks.filter (fun t => t.scheduled_date == some dt.isoformat) →
      T ≠ [] →
      (∀ t ∈ T, t.metric ∈ (["count", "timer", "check"] : List String)) →
      ∃ m2, daily_report db dt = .ok
        ⟨dt.isoformat, T.length,
         (T.filter (fun t => has_activity db.events t)).length,
         round1 (((T.filter (fun t => has_activity db.events t)).length : ℚ) /
           (T.length : ℚ) * 100),
         m2⟩) := by
  constructor
  · intro hempty
    unfold daily_report
    rw [hempty]
    rfl
  · intro T hT hne hkeys
    have hkeys' : ∀ t ∈ T, has_activity db.events t = true →
        t.metric ∈ init_metrics.map Prod.fst := by
      intro t ht _
      simpa [init_metrics] using hkeys t ht
    obtain ⟨m2, htal, _⟩ := tally_completed db.events T 0 init_metrics hkeys'
    refine ⟨m2, ?_⟩
    unfold daily_report
    rw [← hT]
    rw [if_neg (by simpa [List.isEmpty_iff] using hne)]
    rw [htal]
    simp

/-- C10: a date whose scheduled tasks include one with a metric outside
`count`, `timer`, `check` that has at least one event makes
`daily_report` fail with the generic 500, because the per-metric tally
raises a `KeyError` on the fixed three-key dict, swallowed by the
catch-all — unlike `task_summary`'s defensive unknown-metric result. -/
theorem daily_report_unknown_metric_500 (db : DB) (dt : CalDate) (t : Task)
    (ht : t ∈ db.tasks) (hd : t.scheduled_date = some dt.isoformat)
    (hm : t.metric ∉ (["count", "timer", "check"] : List String))
    (hev : has_activity db.events t = true) :
    daily_report db dt = .error (.serverError "Failed to generate daily report") := by
  have htmem : t ∈ db.tasks.filter (fun t => t.scheduled_date == some dt.isoformat) := by
    rw [List.mem_filter]
    exact ⟨ht, by simp [hd]⟩
  have hne : db.tasks.filter (fun t => t.scheduled_date == some dt.isoformat) ≠ [] :=
    List.ne_nil_of_mem htmem
  have hfail := tally_fails db.events
    (db.tasks.filter (fun t => t.scheduled_date == some dt.isoformat)) 0 init_metrics
    ⟨t, htmem, hev, by simpa [init_metrics] using hm⟩
  unfold daily_report
  rw [if_neg (by simpa [List.isEmpty_iff] using hne)]
  rw [hfail]

/-! ## The generation race (claim C9)

`generate_daily_tasks` is a read (`gen_check`) followed by writes
(`gen_insert`) with no lock and, per `ensure_indexes`, no uniqueness
constraint involving `(template_id, scheduled_date)`. Two requests for
the same date are modelled as two instances of the check/insert pair;
the schedule check₁, check₂, insert₁, insert₂ is a legal interleaving
under the spec's concurrency model (each store operation is atomic, the
sequence is not). -/

/-- A template active on every weekday, used to exhibit the race. -/
def race_template : Template :=
  ⟨"tpl-1", "Daily", "#112233", "count", some 50, [0, 1, 2, 3, 4, 5, 6], 0⟩

/-- Initial store for the race scenario: one template, no tasks. -/
def race_db : DB := ⟨[], [race_template], []⟩

/-- C9 (violated): under the schedule where both requests run their
idempotence check before either inserts, both checks pass on the shared
initial store, and the two insert phases then leave two distinct tasks
with the same `(template_id, scheduled_date)` pair; no unique index
declared by `ensure_indexes` mentions `template_id` and
`scheduled_date` together, so nothing blocks the duplicate. -/
theorem generation_race_demo :
    gen_check race_db (CalDate.isoformat ⟨2024, 6, 3⟩) = false ∧
    gen_check race_db (CalDate.isoformat ⟨2024, 6, 3⟩) = false ∧
    (((gen_insert (gen_insert race_db ⟨2024, 6, 3⟩ (fun _ => "task-a") 1)
        ⟨2024, 6, 3⟩ (fun _ => "task-b") 2).tasks.filter
      (fun t => t.template_id == some "tpl-1" &&
        t.scheduled_date == some (CalDate.isoformat ⟨2024, 6, 3⟩))).length = 2) ∧
    ¬ ∃ spec ∈ ensure_indexes, spec.unique = true ∧
        "template_id" ∈ spec.keys ∧ "scheduled_date" ∈ spec.keys := by
  refine ⟨by decide, by decide, by decide, by decide⟩

/-! ## Concrete stores used by the witnesses -/

/-- The spec's Pushups scenario task: `metric = count`, `goal = 50`. -/
def w_task1 : Task :=
  ⟨"t1", "Pushups", "#6366F1", "count", some 50, none, some "2024-06-03", 0⟩

/-- Store with the Pushups task and increments `10, 15, 25`. -/
def w_db1 : DB :=
  ⟨[w_task1], [],
   [⟨"e1", "t1", "increment", some 10, 1⟩,
    ⟨"e2", "t1", "increment", some 15, 2⟩,
    ⟨"e3", "t1", "increment", some 25, 3⟩]⟩

/-- `w_db1` after logging one more increment of value 7. -/
def w_db1b : DB :=
  ⟨[w_task1], [],
   [⟨"e1", "t1", "increment", some 10, 1⟩,
    ⟨"e2", "t1", "increment", some 15, 2⟩,
    ⟨"e3", "t1", "increment", some 25, 3⟩,
    ⟨"e4", "t1", "increment", some 7, 4⟩]⟩

/-- A timer task. -/
def w_task_t : Task := ⟨"tt", "Run", "#000000", "timer", some 1800, none, none, 0⟩

/-- Store with the timer task, one `timer_stop` of 100 s and one
`timer_start`. -/
def w_db_t : DB :=
  ⟨[w_task_t], [],
   [⟨"f1", "tt", "timer_stop", some 100, 1⟩,
    ⟨"f2", "tt", "timer_start", none, 2⟩]⟩

/-- `w_db_t` after one more `timer_start`. -/
def w_db_t1 : DB :=
  ⟨[w_task_t], [],
   [⟨"f1", "tt", "timer_stop", some 100, 1⟩,
    ⟨"f2", "tt", "timer_start", none, 2⟩,
    ⟨"f3", "tt", "timer_start", none, 3⟩]⟩

/-- `w_db_t` after one more `timer_stop` of 60 s. -/
def w_db_t2 : DB :=
  ⟨[w_task_t], [],
   [⟨"f1", "tt", "timer_stop", some 100, 1⟩,
    ⟨"f2", "tt", "timer_start", none, 2⟩,
    ⟨"f4", "tt", "timer_stop", some 60, 4⟩]⟩

/-- A check task with no events yet. -/
def w_task_c : Task := ⟨"tc", "Meditate", "#ffffff", "check", none, none, none, 0⟩

/-- Store with the check task and an empty event log. -/
def w_db_c : DB := ⟨[w_task_c], [], []⟩

/-- `w_db_c` after logging one `check` event. -/
def w_db_c2 : DB := ⟨[w_task_c], [], [⟨"g1", "tc", "check", none, 1⟩]⟩

/-- The spec's Pushups template, active Monday through Friday. -/
def w_tpl : Template :=
  ⟨"tp1", "Pushups", "#6366F1", "count", some 50, [0, 1, 2, 3, 4], 0⟩

/-- Store with the Pushups template and no tasks. -/
def w_db_gen : DB := ⟨[], [w_tpl], []⟩

/-- Store with a task already generated for 2024-06-03. -/
def w_db_pre : DB := ⟨[w_task1], [], []⟩

/-- Store with no tasks and no templates at all. -/
def w_db_none : DB := ⟨[], [], []⟩

/-- Three tasks scheduled for 2024-06-03, one per metric type. -/
def w_db_rep : DB :=
  ⟨[⟨"rA", "A", "#000000", "count", some 10, none, some "2024-06-03", 0⟩,
    ⟨"rB", "B", "#000000", "timer", none, none, some "2024-06-03", 0⟩,
    ⟨"rC", "C", "#000000", "check", none, none, some "2024-06-03", 0⟩],
   [],
   [⟨"h1", "rA", "increment", some 1, 1⟩,
    ⟨"h2", "rB", "timer_stop", some 30, 2⟩]⟩

/-- A scheduled task with a corrupted metric and one event, making the
daily report raise. -/
def w_db_bad : DB :=
  ⟨[⟨"tu", "Steps", "#000000", "steps", none, none, some "2024-06-03", 0⟩],
   [],
   [⟨"k1", "tu", "increment", some 1, 1⟩]⟩

/-- An existing task whose stored metric fits no aggregation branch. -/
def w_db_unknown : DB :=
  ⟨[⟨"tu", "Steps", "#000000", "steps", none, none, none, 0⟩], [], []⟩

/-! ## Witnesses -/

theorem count_summary_witness :
    task_summary w_db1 "t1" = .ok (.countS (count_total w_db1 "t1") w_task1.goal) ∧
    count_total w_db1b "t1" = count_total w_db1 "t1" + 7 ∧
    count_total w_db1 "t1" = 50 := by
  have h := count_summary_spec w_db1 "t1" w_task1 (by decide) (by decide)
  exact ⟨h.1,
    h.2.1 7 "e4" 4 ⟨"e4", "t1", "increment", some 7, 4⟩ w_db1b (by rfl),
    by decide⟩

theorem timer_summary_witness :
    task_summary w_db_t "tt" = .ok (.timerS (timer_total w_db_t "tt") w_task_t.goal) ∧
    timer_total w_db_t1 "tt" = timer_total w_db_t "tt" ∧
    timer_total w_db_t2 "tt" = timer_total w_db_t "tt" + 60 ∧
    timer_total w_db_t "tt" = 100 := by
  have h := timer_summary_spec w_db_t "tt" w_task_t (by decide) (by decide)
  exact ⟨h.1,
    (h.2.1 "f3" 3 ⟨"f3", "tt", "timer_start", none, 3⟩ w_db_t1 (by rfl)).1,
    h.2.2 60 "f4" 4 ⟨"f4", "tt", "timer_stop", some 60, 4⟩ w_db_t2 (by rfl),
    by decide⟩

theorem check_summary_witness :
    task_summary w_db_c "tc" = .ok (.checkS false) ∧
    task_summary w_db_c2 "tc" = .ok (.checkS true) := by
  have h := check_summary_spec w_db_c "tc" w_task_c (by decide) (by decide)
  exact ⟨h.2.2.1 (by decide),
    h.2.2.2 "g1" 1 ⟨"g1", "tc", "check", none, 1⟩ w_db_c2 (by rfl)⟩

theorem summary_notfound_witness :
    task_summary ⟨w_db1.tasks, w_db1.templates, w_db1.events⟩ "zz" =
      .error (.notFound "Task not found") ∧
    (∀ e ∈ w_db_none.events, e.task_id ≠ "t1") ∧
    task_summary w_db_none "t1" = .error (.notFound "Task not found") := by
  have h1 := (summary_notfound_spec w_db1 "zz").1 (by decide) w_db1.events
  have h2 := (summary_notfound_spec w_db_pre "t1").2 w_db_none (by rfl)
  exact ⟨h1, h2.1, h2.2⟩

theorem unknown_metric_witness :
    task_summary w_db_unknown "tu" = .ok (.unknownMetric "Unknown metric") :=
  unknown_metric_spec w_db_unknown "tu"
    ⟨"tu", "Steps", "#000000", "steps", none, none, none, 0⟩
    (by decide) (by decide)

theorem generate_matching_witness :
    ∃ ts : List Task,
      (generate_daily_tasks w_db_gen ⟨2024, 6, 3⟩ (fun i => "id-" ++ toString i) 5).1.tasks =
        some ts ∧
      (generate_daily_tasks w_db_gen ⟨2024, 6, 3⟩ (fun i => "id-" ++ toString i) 5).1.created =
        ts.length ∧
      (generate_daily_tasks w_db_gen ⟨2024, 6, 3⟩ (fun i => "id-" ++ toString i) 5).2 =
        { w_db_gen with tasks := w_db_gen.tasks ++ ts } ∧
      List.Forall₂ (fun (tk : Task) (tpl : Template) =>
        tk.name = tpl.name ∧ tk.color = tpl.color ∧ tk.metric = tpl.metric ∧
        tk.goal = tpl.goal ∧ tk.template_id = some tpl.id ∧
        tk.scheduled_date = some (CalDate.isoformat ⟨2024, 6, 3⟩) ∧ tk.created_at = 5)
        ts (matching_templates w_db_gen ⟨2024, 6, 3⟩) ∧
      (∀ tk ∈ ts, ∃ tpl ∈ w_db_gen.templates,
        tpl.active_days.contains (weekday ⟨2024, 6, 3⟩) = true ∧
        ∃ tid, tk = instantiate_template tpl tid (CalDate.isoformat ⟨2024, 6, 3⟩) 5) ∧
      weekday ⟨2024, 6, 3⟩ = 0 ∧ weekday ⟨2024, 6, 9⟩ = 6 :=
  generate_creates_matching_tasks w_db_gen ⟨2024, 6, 3⟩
    (fun i => "id-" ++ toString i) 5 (by decide)

theorem generate_idempotence_witness :
    generate_daily_tasks w_db_pre ⟨2024, 6, 3⟩ (fun _ => "x") 0 =
      ({ message := "Tasks already exist for " ++ CalDate.isoformat ⟨2024, 6, 3⟩,
         created := 0, tasks := none }, w_db_pre) ∧
    (generate_daily_tasks w_db_none ⟨2024, 6, 3⟩ (fun _ => "x") 0 =
      ({ message := "Generated 0 tasks for " ++ CalDate.isoformat ⟨2024, 6, 3⟩,
         created := 0, tasks := some [] }, w_db_none) ∧
      "Generated 0 tasks for " ++ CalDate.isoformat ⟨2024, 6, 3⟩ ≠
        "Tasks already exist for " ++ CalDate.isoformat ⟨2024, 6, 3⟩) ∧
    ((generate_daily_tasks
        (generate_daily_tasks w_db_gen ⟨2024, 6, 3⟩ (fun _ => "y") 0).2
        ⟨2024, 6, 3⟩ (fun _ => "z") 1).1.created = 0 ∧
     (generate_daily_tasks
        (generate_daily_tasks w_db_gen ⟨2024, 6, 3⟩ (fun _ => "y") 0).2
        ⟨2024, 6, 3⟩ (fun _ => "z") 1).2 =
       (generate_daily_tasks w_db_gen ⟨2024, 6, 3⟩ (fun _ => "y") 0).2) :=
  ⟨(generate_idempotence_spec w_db_pre ⟨2024, 6, 3⟩ (fun _ => "x") 0).1
      ⟨w_task1, by decide, by decide⟩,
   (generate_idempotence_spec w_db_none ⟨2024, 6, 3⟩ (fun _ => "x") 0).2.1
      (by decide) (by decide),
   (generate_idempotence_spec w_db_gen ⟨2024, 6, 3⟩ (fun _ => "y") 0).2.2
      (fun _ => "z") 1⟩

theorem daily_report_witness :
    daily_report w_db_rep ⟨2024, 6, 4⟩ =
      .ok ⟨CalDate.isoformat ⟨2024, 6, 4⟩, 0, 0, 0, []⟩ ∧
    (∃ m2, daily_report w_db_rep ⟨2024, 6, 3⟩ =
      .ok ⟨CalDate.isoformat ⟨2024, 6, 3⟩, 3, 2, round1 ((2 : ℚ) / 3 * 100), m2⟩) ∧
    round1 ((2 : ℚ) / 3 * 100) = 667 / 10 := by
  have h1 := (daily_report_spec w_db_rep ⟨2024, 6, 4⟩).1 (by decide)
  have h2 := (daily_report_spec w_db_rep ⟨2024, 6, 3⟩).2 _ rfl (by decide) (by decide)
  obtain ⟨m2, hm2⟩ := h2
  refine ⟨h1, ⟨m2, ?_⟩, by norm_num [round1, pyRoundInt]⟩
  rw [hm2]
  have hL : (List.filter (fun t => t.scheduled_date ==
      some (CalDate.isoformat ⟨2024, 6, 3⟩)) w_db_rep.tasks).length = 3 := by decide
  have hC : (List.filter (fun t => has_activity w_db_rep.events t)
      (List.filter (fun t => t.scheduled_date ==
        some (CalDate.isoformat ⟨2024, 6, 3⟩)) w_db_rep.tasks)).length = 2 := by decide
  rw [hL, hC]
  norm_num

theorem daily_report_500_witness :
    daily_report w_db_bad ⟨2024, 6, 3⟩ =
      .error (.serverError "Failed to generate daily report") :=
  daily_report_unknown_metric_500 w_db_bad ⟨2024, 6, 3⟩
    ⟨"tu", "Steps", "#000000", "steps", none, none, some "2024-06-03", 0⟩
    (by decide) (by decide) (by decide) (by decide)

end TaskApi
